import Mathlib

/-!
# Freact-Docs: the site configuration module

A shallow embedding of `docusaurus.config.js`.  The module builds one object
literal, `config`, and exports it.  Everything the module reads from outside its
own text is made an explicit input:

* the clock, read once through `new Date().getFullYear()`;
* the module loader (`require.resolve`) and the two theme objects obtained
  with `require` from the package `prism-react-renderer`.

Object literals become structures.  A key written in every object of an array
is a plain field; a key written in only some of them is an `Option` field,
`none` standing for an absent key.
-/

set_option autoImplicit false

namespace Freact

/-! ## Inputs of the module -/

/-- A JavaScript `Date` as seen through its local-time getters. -/
structure Date where
  fullYear : Nat
  month : Nat
  date : Nat
  hours : Nat
  minutes : Nat
  seconds : Nat
  milliseconds : Nat
  deriving DecidableEq, Repr

/-- The method `Date.prototype.getFullYear`. -/
def Date.getFullYear (d : Date) : Nat := d.fullYear

/-- What the module loader supplies: `resolve` is `require.resolve`, mapping a
relative request to the resolved file name, and the two themes are the values of
`require("prism-react-renderer/themes/github")` and
`require("prism-react-renderer/themes/dracula")`.  The type `θ` of theme objects
belongs to that package and is left abstract.  A request that cannot be
resolved throws before anything is exported; an `Env` describes a loader under
which the four requests of the module succeed, so that there is an exported
object to speak of. -/
structure Env (θ : Type) where
  resolve : String → String
  lightCodeTheme : θ
  darkCodeTheme : θ

/-! ## Shape of the configuration object -/

/-- The object under the key `i18n`. -/
structure I18n where
  defaultLocale : String
  locales : List String
  deriving DecidableEq, Repr

/-- The object under `presets[0][1].docs`. -/
structure DocsOptions where
  routeBasePath : String
  sidebarPath : String
  editUrl : String
  deriving DecidableEq, Repr

/-- The object under `presets[0][1].theme`. -/
structure ThemeOptions where
  customCss : String
  deriving DecidableEq, Repr

/-- The options object of the classic preset; `blog` is the literal `false`. -/
structure PresetOptions where
  docs : DocsOptions
  blog : Bool
  theme : ThemeOptions
  deriving DecidableEq, Repr

/-- The object under `themeConfig.navbar.logo`. -/
structure Logo where
  alt : String
  src : String
  deriving DecidableEq, Repr

/-- An entry of `themeConfig.navbar.items`.  The keys `position` and `label`
are written in every entry; `type`, `docId` and `href` only in some. -/
structure NavbarItem where
  type : Option String
  docId : Option String
  href : Option String
  position : String
  label : String
  deriving DecidableEq, Repr

/-- The object under `themeConfig.navbar`. -/
structure Navbar where
  title : String
  logo : Logo
  items : List NavbarItem
  deriving DecidableEq, Repr

/-- An entry of the `items` of a footer link group: `label` is always written,
and either `to` (here `to_`, the bare word being reserved) or `href`. -/
structure FooterLinkItem where
  label : String
  to_ : Option String
  href : Option String
  deriving DecidableEq, Repr

/-- An entry of `themeConfig.footer.links`. -/
structure FooterLinkGroup where
  title : String
  items : List FooterLinkItem
  deriving DecidableEq, Repr

/-- The object under `themeConfig.footer`. -/
structure Footer where
  style : String
  links : List FooterLinkGroup
  copyright : String
  deriving DecidableEq, Repr

/-- The object under `themeConfig.prism`. -/
structure Prism (θ : Type) where
  theme : θ
  darkTheme : θ

/-- The object under `themeConfig`. -/
structure ThemeConfig (θ : Type) where
  navbar : Navbar
  footer : Footer
  prism : Prism θ

/-- The exported object.  A preset entry is the two-element array
`[name, options]`, here a pair. -/
structure Config (θ : Type) where
  title : String
  tagline : String
  url : String
  baseUrl : String
  onBrokenLinks : String
  onBrokenMarkdownLinks : String
  favicon : String
  organizationName : String
  projectName : String
  i18n : I18n
  presets : List (String × PresetOptions)
  themeConfig : ThemeConfig θ

/-! ## The module body -/

/-- The value of `themeConfig.navbar.items`. -/
def navbarItems : List NavbarItem :=
  [ { type := some "doc", docId := some "intro", href := none,
      position := "left", label := "Docs" },
    { type := none, docId := none,
      href := some "https://github.com/Facundo-Martin/Freact-Docs",
      label := "GitHub", position := "right" },
    { type := none, docId := none,
      href := some "https://facundomartin.io/",
      label := "Facundo", position := "right" } ]

/-- The value of `themeConfig.footer.links`. -/
def footerLinks : List FooterLinkGroup :=
  [ { title := "Docs",
      items :=
        [ { label := "Tutorial", to_ := some "/", href := none },
          { label := "Production React", to_ := some "/", href := none },
          { label := "Tech Stack", to_ := some "/", href := none },
          { label := "Tutorial", to_ := some "/", href := none },
          { label := "Tutorial", to_ := some "/", href := none } ] },
    { title := "Community",
      items :=
        [ { label := "Theo Browne", to_ := none,
            href := some "https://www.youtube.com/@t3dotgg" },
          { label := "ThePrimeagen", to_ := none,
            href := some "https://www.youtube.com/@ThePrimeagen" },
          { label := "Lee Robinson", to_ := none,
            href := some "https://www.youtube.com/@leerob" },
          { label := "Jack Herrington", to_ := none,
            href := some "https://www.youtube.com/@jherr" } ] },
    { title := "More",
      items :=
        [ { label := "Facundo Martin", to_ := none,
            href := some "https://facundomartin.io/" },
          { label := "GitHub", to_ := none,
            href := some "https://github.com/Facundo-Martin" } ] } ]

/-- The object bound to `config` and assigned to `module.exports`, as a function
of the loader environment and of the value `now` of `new Date()`.  The template
literal of `copyright` converts the year, a number, to its decimal string. -/
def config {θ : Type} (env : Env θ) (now : Date) : Config θ :=
  { title := "Freact"
    tagline := "A Front End + React documentation"
    url := "https://your-docusaurus-test-site.com"
    baseUrl := "/"
    onBrokenLinks := "throw"
    onBrokenMarkdownLinks := "warn"
    favicon := "img/favicon.ico"
    organizationName := "Facundo Martin"
    projectName := "freact-docs"
    i18n := { defaultLocale := "en", locales := ["en"] }
    presets :=
      [ ("classic",
          { docs :=
              { routeBasePath := "/"
                sidebarPath := env.resolve "./sidebars.js"
                editUrl := "https://github.com/Facundo-Martin/Freact-Docs/tree/main" }
            blog := false
            theme := { customCss := env.resolve "./src/css/custom.css" } }) ]
    themeConfig :=
      { navbar :=
          { title := "Freact"
            logo := { alt := "Freact Logo", src := "img/logo.svg" }
            items := navbarItems }
        footer :=
          { style := "dark"
            links := footerLinks
            copyright := "Copyright ?? " ++ toString now.getFullYear ++ " Facundo Martin" }
        prism := { theme := env.lightCodeTheme, darkTheme := env.darkCodeTheme } } }

/-- A concrete loader environment: files resolve under `/srv/freact`, and the
theme objects carry no information. -/
def sampleEnv : Env Unit :=
  { resolve := fun request => String.mk ("/srv/freact".toList ++ request.toList.drop 1)
    lightCodeTheme := ()
    darkCodeTheme := () }

/-- The last millisecond of the year 2023. -/
def endOf2023 : Date :=
  { fullYear := 2023, month := 11, date := 31, hours := 23, minutes := 59,
    seconds := 59, milliseconds := 999 }

/-- The first millisecond of the year 2024. -/
def startOf2024 : Date :=
  { fullYear := 2024, month := 0, date := 1, hours := 0, minutes := 0,
    seconds := 0, milliseconds := 0 }

/-- The last millisecond of the year 2024. -/
def endOf2024 : Date :=
  { fullYear := 2024, month := 11, date := 31, hours := 23, minutes := 59,
    seconds := 59, milliseconds := 999 }

/-! ## Vocabulary of the properties -/

/-- The three broken-link policies. -/
def brokenLinkPolicies : List String := ["throw", "warn", "ignore"]

/-- Removes the leading characters `pre` from `cs`, if `cs` starts with them. -/
def stripLeading : List Char → List Char → Option (List Char)
  | [], cs => some cs
  | _ :: _, [] => none
  | p :: pre, c :: cs => if p = c then stripLeading pre cs else none

/-- The host of what follows the scheme of a URL: the characters before the
first of `/`, `?`, `#` and `:`. -/
def hostChars (rest : List Char) : List Char :=
  rest.takeWhile (fun c => !(c == '/' || c == '?' || c == '#' || c == ':'))

/-- The external-URL pattern: `https://` followed by a non-empty host. -/
def isExternalUrl (target : String) : Bool :=
  match stripLeading "https://".toList target.toList with
  | some rest => !(hostChars rest).isEmpty
  | none => false

/-- Every `href` written in the navbar items and in the footer link items, in
source order. -/
def externalTargets {θ : Type} (c : Config θ) : List String :=
  c.themeConfig.navbar.items.filterMap (fun i => i.href) ++
    (c.themeConfig.footer.links.map
      (fun g => g.items.filterMap (fun i => i.href))).flatten

/-- Every document reference of the navbar: the `docId` of the items of type
`doc`. -/
def documentRefs {θ : Type} (c : Config θ) : List String :=
  c.themeConfig.navbar.items.filterMap
    (fun i => if i.type = some "doc" then i.docId else none)

/-- Splits a list of characters at every `sep`, as `String.prototype.split`
does with a one-character separator; `cur` holds the piece being read,
reversed. -/
def splitAtChar (sep : Char) : List Char → List Char → List String
  | cur, [] => [String.mk cur.reverse]
  | cur, c :: cs =>
    if c = sep then String.mk cur.reverse :: splitAtChar sep [] cs
    else splitAtChar sep (c :: cur) cs

/-- The pieces of a URL between slashes.  For `https://host/owner/repo` they are
`https:`, the empty string, the host, the owner and the repository. -/
def urlSegments (url : String) : List String := splitAtChar '/' [] url.toList

/-- The owner segment of a repository URL. -/
def ownerSegment (url : String) : Option String := (urlSegments url).get? 3

/-- The repository segment of a repository URL. -/
def repoSegment (url : String) : Option String := (urlSegments url).get? 4

/-- The `href` of the navbar item labelled `GitHub`. -/
def githubHref {θ : Type} (c : Config θ) : Option String :=
  (c.themeConfig.navbar.items.find? (fun i => i.label == "GitHub")).bind (fun i => i.href)

/-- The `editUrl` of the docs plugin of the first preset. -/
def docsEditUrl {θ : Type} (c : Config θ) : Option String :=
  c.presets.head?.map (fun p => p.2.docs.editUrl)

/-- Whether `pre` is an initial part of `s`, character by character. -/
def startsWith (s pre : String) : Bool := (stripLeading pre.toList s.toList).isSome

/-- Follows the words of the property: the decimal rendering of a year, that is
its base-ten digits, most significant first, and the single digit `0` for zero. -/
def decimalRendering (y : Nat) : String :=
  if y = 0 then "0" else String.mk ((Nat.digits 10 y).reverse.map Nat.digitChar)

/-! ## Properties -/

/-- C1: the two broken-link settings are `throw` and `warn`, both are members of
the policy set, and they are different policies. -/
theorem broken_link_policies_selected {θ : Type} (env : Env θ) (now : Date) :
    (config env now).onBrokenLinks = "throw" ∧
    (config env now).onBrokenMarkdownLinks = "warn" ∧
    (config env now).onBrokenLinks ∈ brokenLinkPolicies ∧
    (config env now).onBrokenMarkdownLinks ∈ brokenLinkPolicies ∧
    (config env now).onBrokenLinks ≠ (config env now).onBrokenMarkdownLinks := by
  refine ⟨rfl, rfl, ?_, ?_, ?_⟩
  · show "throw" ∈ brokenLinkPolicies
    decide
  · show "warn" ∈ brokenLinkPolicies
    decide
  · show "throw" ≠ "warn"
    decide

/-- Conversion of a positive number with enough fuel: the base-ten digits, most
significant first, in front of the accumulator. -/
theorem toDigitsCore_ten (fuel : Nat) :
    ∀ (n : Nat) (acc : List Char), 0 < n → n < fuel →
      Nat.toDigitsCore 10 fuel n acc =
        (Nat.digits 10 n).reverse.map Nat.digitChar ++ acc := by
  induction fuel with
  | zero => intro n acc _ hf; omega
  | succ fuel ih =>
    intro n acc hn hf
    have hd : Nat.digits 10 n = (n % 10) :: Nat.digits 10 (n / 10) :=
      Nat.digits_def' (by norm_num) hn
    by_cases hq : n / 10 = 0
    · simp [Nat.toDigitsCore, hq, hd]
    · have hlt : n / 10 < fuel := by omega
      have hpos : 0 < n / 10 := Nat.pos_of_ne_zero hq
      simp [Nat.toDigitsCore, hq, hd, ih (n / 10) _ hpos hlt]

/-- The string conversion of a number is its decimal rendering. -/
theorem toString_eq_decimalRendering (y : Nat) : toString y = decimalRendering y := by
  unfold decimalRendering
  by_cases hy : y = 0
  · subst hy
    decide
  · rw [if_neg hy]
    show (Nat.toDigits 10 y).asString = _
    unfold Nat.toDigits
    rw [toDigitsCore_ten (y + 1) y [] (Nat.pos_of_ne_zero hy) (Nat.lt_succ_self y)]
    simp [List.asString]

/-- The document references of the navbar are the single identifier `intro`. -/
theorem documentRefs_config {θ : Type} (env : Env θ) (now : Date) :
    documentRefs (config env now) = ["intro"] := rfl

/-- C2: the config defines the options of the documented set, each with a
non-empty value: title, baseUrl, locales, three footer link groups (each with a
non-empty title and non-empty items), three navbar items and the broken-link
policy. -/
theorem config_defines_documented_options {θ : Type} (env : Env θ) (now : Date) :
    (config env now).title = "Freact" ∧
    (config env now).title ≠ "" ∧
    (config env now).baseUrl = "/" ∧
    (config env now).baseUrl ≠ "" ∧
    (config env now).i18n.locales = ["en"] ∧
    (config env now).i18n.locales ≠ [] ∧
    (config env now).themeConfig.footer.links.length = 3 ∧
    (∀ g ∈ (config env now).themeConfig.footer.links, g.title ≠ "" ∧ g.items ≠ []) ∧
    (config env now).themeConfig.footer.links.map (fun g => g.title) =
      ["Docs", "Community", "More"] ∧
    (config env now).themeConfig.navbar.items.length = 3 ∧
    (config env now).themeConfig.navbar.items ≠ [] ∧
    (config env now).onBrokenLinks = "throw" ∧
    (config env now).onBrokenLinks ≠ "" := by
  refine ⟨rfl, ?_, rfl, ?_, rfl, ?_, rfl, ?_, rfl, rfl, ?_, rfl, ?_⟩
  · show "Freact" ≠ ""
    decide
  · show "/" ≠ ""
    decide
  · show ["en"] ≠ []
    decide
  · show ∀ g ∈ footerLinks, g.title ≠ "" ∧ g.items ≠ []
    decide
  · show navbarItems ≠ []
    decide
  · show "throw" ≠ ""
    decide

/-- C3: every navbar item has a non-empty label and exactly one target: a
`docId` (written exactly on the items of type `doc`) or an `href`, never both
and never neither. -/
theorem navbar_items_well_formed {θ : Type} (env : Env θ) (now : Date) :
    (config env now).themeConfig.navbar.items.length = 3 ∧
    ∀ i ∈ (config env now).themeConfig.navbar.items,
      i.label ≠ "" ∧
      (i.docId.isSome = true ↔ i.type = some "doc") ∧
      (i.docId.isSome = true ∨ i.href.isSome = true) ∧
      ¬ (i.docId.isSome = true ∧ i.href.isSome = true) := by
  refine ⟨rfl, ?_⟩
  show ∀ i ∈ navbarItems, i.label ≠ "" ∧
      (i.docId.isSome = true ↔ i.type = some "doc") ∧
      (i.docId.isSome = true ∨ i.href.isSome = true) ∧
      ¬ (i.docId.isSome = true ∧ i.href.isSome = true)
  decide

/-- C4: the `href` values of the navbar and footer items are the eight listed
ones, each matches the external-URL pattern, and a validator that accepts every
target matching the pattern reports none of them. -/
theorem external_hrefs_accepted {θ : Type} (env : Env θ) (now : Date)
    (violates : String → Bool)
    (haccept : ∀ t, isExternalUrl t = true → violates t = false) :
    externalTargets (config env now) =
      [ "https://github.com/Facundo-Martin/Freact-Docs",
        "https://facundomartin.io/",
        "https://www.youtube.com/@t3dotgg",
        "https://www.youtube.com/@ThePrimeagen",
        "https://www.youtube.com/@leerob",
        "https://www.youtube.com/@jherr",
        "https://facundomartin.io/",
        "https://github.com/Facundo-Martin" ] ∧
    ∀ h ∈ externalTargets (config env now),
      isExternalUrl h = true ∧ violates h = false := by
  refine ⟨rfl, ?_⟩
  have key : ∀ h ∈ externalTargets (config sampleEnv endOf2023),
      isExternalUrl h = true := by decide
  intro h hh
  exact ⟨key h hh, haccept h (key h hh)⟩

/-- Witness of C4 at the sample environment, with the validator that reports
exactly the targets outside the pattern. -/
theorem external_hrefs_accepted_witness :
    (∀ t, isExternalUrl t = true → (!isExternalUrl t) = false) ∧
    (externalTargets (config sampleEnv startOf2024) =
      [ "https://github.com/Facundo-Martin/Freact-Docs",
        "https://facundomartin.io/",
        "https://www.youtube.com/@t3dotgg",
        "https://www.youtube.com/@ThePrimeagen",
        "https://www.youtube.com/@leerob",
        "https://www.youtube.com/@jherr",
        "https://facundomartin.io/",
        "https://github.com/Facundo-Martin" ] ∧
    ∀ h ∈ externalTargets (config sampleEnv startOf2024),
      isExternalUrl h = true ∧ (!isExternalUrl h) = false) :=
  ⟨fun t ht => by simp [ht],
    external_hrefs_accepted sampleEnv startOf2024 (fun t => !isExternalUrl t)
      (fun t ht => by simp [ht])⟩

/-- C5, as stated, fails: two evaluations one millisecond apart, across the
turn of the year, export different configs. -/
theorem config_differs_across_new_year :
    config sampleEnv endOf2023 ≠ config sampleEnv startOf2024 := by
  intro h
  have hc := congrArg (fun c => c.themeConfig.footer.copyright) h
  revert hc
  show "Copyright ?? " ++ toString 2023 ++ " Facundo Martin" ≠
    "Copyright ?? " ++ toString 2024 ++ " Facundo Martin"
  decide

/-- C5, amended: two evaluations with the same loader environment whose clock
readings fall in the same calendar year export the same config. -/
theorem config_deterministic_within_year {θ : Type} (env : Env θ) (d₁ d₂ : Date)
    (hyear : d₁.getFullYear = d₂.getFullYear) : config env d₁ = config env d₂ := by
  unfold config
  rw [hyear]

/-- Witness of the amended C5: the first and the last millisecond of 2024. -/
theorem config_deterministic_within_year_witness :
    startOf2024 ≠ endOf2024 ∧
    startOf2024.getFullYear = endOf2024.getFullYear ∧
    config sampleEnv startOf2024 = config sampleEnv endOf2024 :=
  ⟨by decide, rfl, config_deterministic_within_year sampleEnv startOf2024 endOf2024 rfl⟩

/-- C7, evaluated on the code: the repository URL used by the navbar and by
`editUrl` has owner `Facundo-Martin` and repository `Freact-Docs`, while
`organizationName` is `Facundo Martin` and `projectName` is `freact-docs`;
neither field equals its segment. -/
theorem github_fields_differ_from_repository_url {θ : Type} (env : Env θ) (now : Date) :
    githubHref (config env now) = some "https://github.com/Facundo-Martin/Freact-Docs" ∧
    docsEditUrl (config env now) =
      some "https://github.com/Facundo-Martin/Freact-Docs/tree/main" ∧
    startsWith "https://github.com/Facundo-Martin/Freact-Docs/tree/main"
      "https://github.com/Facundo-Martin/Freact-Docs" = true ∧
    ownerSegment "https://github.com/Facundo-Martin/Freact-Docs" = some "Facundo-Martin" ∧
    repoSegment "https://github.com/Facundo-Martin/Freact-Docs" = some "Freact-Docs" ∧
    (config env now).organizationName = "Facundo Martin" ∧
    (config env now).projectName = "freact-docs" ∧
    some (config env now).organizationName ≠
      ownerSegment "https://github.com/Facundo-Martin/Freact-Docs" ∧
    some (config env now).projectName ≠
      repoSegment "https://github.com/Facundo-Martin/Freact-Docs" := by
  refine ⟨?_, rfl, ?_, ?_, ?_, rfl, rfl, ?_, ?_⟩
  · show githubHref (config sampleEnv endOf2023) = _
    decide
  · decide
  · decide
  · decide
  · show some "Facundo Martin" ≠ _
    decide
  · show some "freact-docs" ≠ _
    decide

/-- C8: the copyright string is `Copyright ?? `, the decimal rendering of the
year of the clock reading, and ` Facundo Martin`; two clock readings give
configs that agree on every field other than `themeConfig.footer.copyright`,
and readings in the same year give the same config. -/
theorem config_depends_on_year_through_copyright {θ : Type} (env : Env θ)
    (d₁ d₂ : Date) :
    (config env d₁).themeConfig.footer.copyright =
      "Copyright ?? " ++ decimalRendering d₁.getFullYear ++ " Facundo Martin" ∧
    (config env d₁).title = (config env d₂).title ∧
    (config env d₁).tagline = (config env d₂).tagline ∧
    (config env d₁).url = (config env d₂).url ∧
    (config env d₁).baseUrl = (config env d₂).baseUrl ∧
    (config env d₁).onBrokenLinks = (config env d₂).onBrokenLinks ∧
    (config env d₁).onBrokenMarkdownLinks = (config env d₂).onBrokenMarkdownLinks ∧
    (config env d₁).favicon = (config env d₂).favicon ∧
    (config env d₁).organizationName = (config env d₂).organizationName ∧
    (config env d₁).projectName = (config env d₂).projectName ∧
    (config env d₁).i18n = (config env d₂).i18n ∧
    (config env d₁).presets = (config env d₂).presets ∧
    (config env d₁).themeConfig.navbar = (config env d₂).themeConfig.navbar ∧
    (config env d₁).themeConfig.footer.style = (config env d₂).themeConfig.footer.style ∧
    (config env d₁).themeConfig.footer.links = (config env d₂).themeConfig.footer.links ∧
    (config env d₁).themeConfig.prism = (config env d₂).themeConfig.prism ∧
    (d₁.getFullYear = d₂.getFullYear → config env d₁ = config env d₂) := by
  refine ⟨?_, rfl, rfl, rfl, rfl, rfl, rfl, rfl, rfl, rfl, rfl, rfl, rfl, rfl, rfl, rfl, ?_⟩
  · rw [← toString_eq_decimalRendering]
    rfl
  · intro hyear
    unfold config
    rw [hyear]

/-- Witness of C8 at the two ends of 2024. -/
theorem config_depends_on_year_through_copyright_witness :
    (config sampleEnv startOf2024).themeConfig.footer.copyright =
      "Copyright ?? 2024 Facundo Martin" ∧
    startOf2024.getFullYear = endOf2024.getFullYear ∧
    config sampleEnv startOf2024 = config sampleEnv endOf2024 :=
  ⟨by decide, rfl,
    (config_depends_on_year_through_copyright sampleEnv startOf2024 endOf2024).2.2.2.2.2.2.2.2.2.2.2.2.2.2.2.2
      rfl⟩

/-- C9: the locale list is non-empty, has no duplicates, and contains the
default locale. -/
theorem locales_consistent {θ : Type} (env : Env θ) (now : Date) :
    (config env now).i18n.locales ≠ [] ∧
    (config env now).i18n.locales.Nodup ∧
    (config env now).i18n.defaultLocale ∈ (config env now).i18n.locales := by
  refine ⟨?_, ?_, ?_⟩
  · show ["en"] ≠ []
    decide
  · show ["en"].Nodup
    decide
  · show "en" ∈ ["en"]
    decide

end Freact
